import Mathlib

/-!
Verification of the Student Learning Resource Platform backend
(`src/main.py`, `src/schemas.py`) against its specification.

The HTTP handlers in `src/main.py` are shallowly embedded as pure Lean
functions.  A MongoDB document is an association list with unique keys
(the uniqueness invariant of a Python `dict` / BSON document); the
`studyasset` collection is a list of documents in insertion order.  The
`database` module of the repository is not under `src/`; the operations it
must provide (`db`-collection access and `create_document`) are modelled
from the spec, §4.1 and §3, and are marked as such in their doc comments.
-/

/-- BSON-like values occurring in documents of this backend: strings,
integers, ObjectIds (kept as their 24-hex-character string form),
datetimes (as an abstract tick count) and null (Python `None`). -/
inductive BVal where
  | str (s : String)
  | int (n : Int)
  | oid (s : String)
  | dt (t : Nat)
  | null
  deriving DecidableEq, Repr

/-- A document: an association list of field name to value.  Models a
Python `dict` / BSON document, whose keys are unique. -/
abbrev Document := List (String × BVal)

/-- The `studyasset` collection: documents in insertion order. -/
abbrev DbStore := List Document

/-- First-occurrence key lookup, the reading of `doc[k]` / `k in doc`. -/
def lookupD : Document → String → Option BVal
  | [], _ => none
  | (k', v) :: rest, k => if k' = k then some v else lookupD rest k

/-- Python `d[k] = v` on a dict: replaces the value at `k` in place if the
key exists (keeping its position), otherwise appends the new binding. -/
def setKey : Document → String → BVal → Document
  | [], k, v => [(k, v)]
  | (k', v') :: rest, k, v =>
      if k' = k then (k, v) :: rest else (k', v') :: setKey rest k v

/-- Python `d.pop(k)`: removes the binding at `k`.  (Removing every
occurrence coincides with removing the unique one on genuine dicts.) -/
def eraseKey : Document → String → Document
  | [], _ => []
  | (k', v) :: rest, k =>
      if k' = k then eraseKey rest k else (k', v) :: eraseKey rest k

/-- Python `str(...)` on the values that can sit in an `_id` field; for an
ObjectId it yields its hex-string form. -/
def bvalStr : BVal → String
  | .str s => s
  | .int n => toString n
  | .oid s => s
  | .dt t => toString t
  | .null => "None"

/-- `serialize_doc` from `src/main.py` lines 20–26: on a falsy (empty)
document return it unchanged; otherwise copy it and, if `_id` is present,
pop it and set `id` to its string form. -/
def serialize_doc (doc : Document) : Document :=
  if doc = [] then doc
  else
    match lookupD doc "_id" with
    | some v => setKey (eraseKey doc "_id") "id" (.str (bvalStr v))
    | none => doc

/-- A hexadecimal digit (0-9, a-f, A-F). -/
def isHexChar (c : Char) : Bool :=
  c.isDigit || ('a' ≤ c && c ≤ 'f') || ('A' ≤ c && c ≤ 'F')

/-- Validity of a path id for `bson.ObjectId(...)`: a string of exactly 24
hexadecimal characters parses; anything else raises. -/
def isValidObjectId (s : String) : Bool :=
  s.length == 24 && s.toList.all isHexChar

/- ### Association-list lemmas -/

theorem lookupD_setKey_self (d : Document) (k : String) (v : BVal) :
    lookupD (setKey d k v) k = some v := by
  induction d with
  | nil => simp [setKey, lookupD]
  | cons kv rest ih =>
      obtain ⟨k', v'⟩ := kv
      by_cases h : k' = k <;> simp [setKey, lookupD, h, ih]

theorem lookupD_setKey_ne (d : Document) (k k' : String) (v : BVal)
    (h : k' ≠ k) : lookupD (setKey d k v) k' = lookupD d k' := by
  induction d with
  | nil => simp [setKey, lookupD, Ne.symm h]
  | cons kv rest ih =>
      obtain ⟨k₀, v₀⟩ := kv
      by_cases h₀ : k₀ = k
      · subst h₀
        simp [setKey, lookupD, Ne.symm h]
      · simp [setKey, lookupD, h₀, ih]

theorem lookupD_eraseKey_self (d : Document) (k : String) :
    lookupD (eraseKey d k) k = none := by
  induction d with
  | nil => simp [eraseKey, lookupD]
  | cons kv rest ih =>
      obtain ⟨k₀, v₀⟩ := kv
      by_cases h₀ : k₀ = k <;> simp [eraseKey, lookupD, h₀, ih]

theorem lookupD_eraseKey_ne (d : Document) (k k' : String) (h : k' ≠ k) :
    lookupD (eraseKey d k) k' = lookupD d k' := by
  induction d with
  | nil => simp [eraseKey]
  | cons kv rest ih =>
      obtain ⟨k₀, v₀⟩ := kv
      by_cases h₀ : k₀ = k
      · subst h₀
        simp [eraseKey, lookupD, Ne.symm h, ih]
      · simp [eraseKey, lookupD, h₀, ih]

/- ### serialize_doc lemmas -/

theorem serialize_doc_of_no_id (d : Document) (h : lookupD d "_id" = none) :
    serialize_doc d = d := by
  unfold serialize_doc
  split
  · rfl
  · rw [h]

theorem lookupD_serialize_doc_id (d : Document) (v : BVal)
    (h : lookupD d "_id" = some v) :
    lookupD (serialize_doc d) "id" = some (.str (bvalStr v)) := by
  have hne : d ≠ [] := by
    intro he
    rw [he] at h
    simp [lookupD] at h
  unfold serialize_doc
  rw [if_neg hne, h]
  exact lookupD_setKey_self _ _ _

theorem lookupD_serialize_doc_no_uid (d : Document) :
    lookupD (serialize_doc d) "_id" = none := by
  unfold serialize_doc
  split
  · next h =>
      rw [h]
      rfl
  · next h =>
      cases hid : lookupD d "_id" with
      | none => exact hid
      | some v =>
          rw [lookupD_setKey_ne _ _ _ _ (by decide)]
          exact lookupD_eraseKey_self _ _

theorem lookupD_serialize_doc_other (d : Document) (k : String)
    (h1 : k ≠ "_id") (h2 : k ≠ "id") :
    lookupD (serialize_doc d) k = lookupD d k := by
  unfold serialize_doc
  split
  · rfl
  · cases hid : lookupD d "_id" with
    | none => rfl
    | some v =>
        rw [lookupD_setKey_ne _ _ _ _ h2]
        exact lookupD_eraseKey_ne _ _ _ h1

/- ### The `$regex` model used by the listing filter

`list_resources` builds `{"$regex": q, "$options": "i"}` clauses, which
MongoDB evaluates with a PCRE engine.  The model below covers the regex
fragment the claims need: literal characters and the `.` wildcard (any
character except a newline), unanchored, with the `i` option rendered by
lowercasing both pattern and subject.  Patterns using other PCRE
metacharacters are outside the modelled fragment; the theorems about
literal-substring behaviour therefore hypothesise their absence. -/

/-- PCRE metacharacters (outside a character class). -/
def pcreMeta : List Char :=
  ['.', '\\', '^', '$', '|', '?', '*', '+', '(', ')', '[', ']',
   Char.ofNat 123, Char.ofNat 125]

/-- Anchored match of a pattern (list of pattern characters, `'.'` being
the wildcard) against the front of the subject. -/
def reMatchAt : List Char → List Char → Bool
  | [], _ => true
  | _ :: _, [] => false
  | p :: ps, c :: cs =>
      if p = '.' then (c != '\n') && reMatchAt ps cs
      else (p == c) && reMatchAt ps cs

/-- Unanchored regex search: the pattern matches at some position. -/
def reSearch (ps : List Char) : List Char → Bool
  | [] => reMatchAt ps []
  | c :: cs => reMatchAt ps (c :: cs) || reSearch ps cs

/-- Case-insensitive Mongo `$regex`/`$options: "i"` match of pattern
`pat` against subject `s`, within the modelled fragment. -/
def mongoRegexCI (pat s : String) : Bool :=
  reSearch (pat.toList.map Char.toLower) (s.toList.map Char.toLower)

/-- Anchored literal-prefix test on character lists. -/
def isPrefixL : List Char → List Char → Bool
  | [], _ => true
  | _ :: _, [] => false
  | p :: ps, c :: cs => (p == c) && isPrefixL ps cs

/-- Literal substring test on character lists. -/
def containsL (q : List Char) : List Char → Bool
  | [] => isPrefixL q []
  | c :: cs => isPrefixL q (c :: cs) || containsL q cs

/-- Spec-side predicate: `s` contains `q` as a case-insensitive literal
substring. -/
def containsCI (s q : String) : Bool :=
  containsL (q.toList.map Char.toLower) (s.toList.map Char.toLower)

theorem reMatchAt_eq_isPrefixL (ps : List Char)
    (hm : ∀ c ∈ ps, c ∉ pcreMeta) (ss : List Char) :
    reMatchAt ps ss = isPrefixL ps ss := by
  induction ps generalizing ss with
  | nil => cases ss <;> rfl
  | cons p ps ih =>
      have hp : p ∉ pcreMeta := hm p (List.mem_cons_self _ _)
      have hdot : p ≠ '.' := by
        intro he
        exact hp (he ▸ by decide)
      cases ss with
      | nil => rfl
      | cons c cs =>
          simp [reMatchAt, isPrefixL, hdot,
            ih (fun c hc => hm c (List.mem_cons_of_mem _ hc))]

theorem reSearch_eq_containsL (ps : List Char)
    (hm : ∀ c ∈ ps, c ∉ pcreMeta) (ss : List Char) :
    reSearch ps ss = containsL ps ss := by
  induction ss with
  | nil => simp [reSearch, containsL, reMatchAt_eq_isPrefixL ps hm]
  | cons c cs ih => simp [reSearch, containsL, reMatchAt_eq_isPrefixL ps hm, ih]

/- ### The listing endpoint `GET /api/resources` -/

/-- Python truthiness of an optional-string query parameter (`if q:`):
`None` and the empty string are falsy. -/
def truthy : Option String → Bool
  | none => false
  | some s => !s.isEmpty

/-- The value of field `k` when it is a string; `$regex` and string
equality clauses only match string-valued fields (null/missing/other
types do not match). -/
def strField (d : Document) (k : String) : Option String :=
  match lookupD d k with
  | some (.str s) => some s
  | _ => none

/-- One `{k: {"$regex": pat, "$options": "i"}}` clause evaluated on a
document. -/
def regexField (pat : String) (d : Document) (k : String) : Bool :=
  match strField d k with
  | some s => mongoRegexCI pat s
  | none => false

/-- The `$or` clause built for `q` in `list_resources` (lines 109–115):
regex match over the five searchable fields. -/
def qFilter (pat : String) (d : Document) : Bool :=
  regexField pat d "title" || regexField pat d "description" ||
  regexField pat d "subject" || regexField pat d "exam" ||
  regexField pat d "year"

/-- An exact-equality clause `{k: v}` on a string value. -/
def eqFilter (k v : String) (d : Document) : Bool :=
  lookupD d k = some (.str v)

/-- The complete `filter_query` of `list_resources` evaluated on a
document: the `q` clause (when `q` is truthy) ANDed with the exact
`subject` and `type` clauses (when truthy). -/
def matchesFilter (q subject ty : Option String) (d : Document) : Bool :=
  (if truthy q then qFilter (q.getD "") d else true) &&
  (if truthy subject then eqFilter "subject" (subject.getD "") d else true) &&
  (if truthy ty then eqFilter "type" (ty.getD "") d else true)

/-- Sort key of `.sort("created_at", -1)`: the document's `created_at`
value when it is a datetime; a missing (or null) field sorts as null,
which BSON orders below every datetime — i.e. as earliest. -/
def caKey (d : Document) : Option Nat :=
  match lookupD d "created_at" with
  | some (.dt t) => some t
  | _ => none

/-- Order on optional sort keys with `none` (missing/null) as bottom. -/
def leO : Option Nat → Option Nat → Bool
  | none, _ => true
  | some _, none => false
  | some a, some b => a ≤ b

/-- The descending `created_at` order used by the listing: `d1` may come
before `d2` when `d2`'s key is at most `d1`'s. -/
def byCreatedDesc (d1 d2 : Document) : Prop :=
  leO (caKey d2) (caKey d1) = true

instance : DecidableRel byCreatedDesc := fun d1 d2 =>
  inferInstanceAs (Decidable (_ = true))

theorem leO_total (x y : Option Nat) : leO x y = true ∨ leO y x = true := by
  cases x <;> cases y <;> simp [leO] <;> omega

theorem leO_trans (x y z : Option Nat) (h1 : leO x y = true)
    (h2 : leO y z = true) : leO x z = true := by
  cases x <;> cases y <;> cases z <;> simp_all [leO] <;> omega

instance : IsTotal Document byCreatedDesc :=
  ⟨fun d1 d2 => (leO_total (caKey d2) (caKey d1)).imp id id⟩

instance : IsTrans Document byCreatedDesc :=
  ⟨fun _ _ _ h1 h2 => leO_trans _ _ _ h2 h1⟩

/-- Mongo's `cursor.limit(n)`: `0` means no limit; a negative `n` behaves
as a limit of `|n|`. -/
def applyLimit (n : Int) (l : List Document) : List Document :=
  if n = 0 then l else l.take n.natAbs

/-- HTTP error results carry the status code and the detail message. -/
abbrev HErr := Nat × String

/-- `list_resources` (`src/main.py` lines 99–127): with the store absent
answer 500; otherwise filter the `studyasset` collection with
`filter_query`, sort by `created_at` descending, truncate to `limit`, and
serialize every returned document.  (Mongo may return any order that is
sorted on the key; the model picks insertion sort.) -/
def list_resources (db : Option DbStore) (q subject ty : Option String)
    (limit : Int) : Except HErr (List Document) :=
  match db with
  | none => .error (500, "Database not configured")
  | some s =>
      .ok (((applyLimit limit
        (List.insertionSort byCreatedDesc
          (s.filter (matchesFilter q subject ty)))).map serialize_doc))

/-- The FastAPI signature default `limit: int = 24`. -/
def list_resources_default (db : Option DbStore) (q subject ty : Option String) :
    Except HErr (List Document) :=
  list_resources db q subject ty 24

/- ### Finding and updating by `_id` -/

/-- Whether a document's `_id` is the ObjectId with hex form `o`.
ObjectId equality is modelled as equality of the 24-hex string form. -/
def isOid (o : String) (d : Document) : Bool :=
  lookupD d "_id" = some (BVal.oid o)

/-- `find_one({"_id": oid})`: the first document of the collection whose
`_id` matches, if any. -/
def findOid : DbStore → String → Option Document
  | [], _ => none
  | d :: ds, o => if isOid o d then some d else findOid ds o

/-- The `likes` value `$inc` starts from: the stored integer, with a
missing field treated as 0 (Mongo creates the field at the increment).
Documents written by this API always store `likes` as an integer or not
at all; a non-numeric value (on which Mongo would error) is outside the
model. -/
def likesVal (d : Document) : Int :=
  match lookupD d "likes" with
  | some (.int n) => n
  | _ => 0

/-- The stored `likes` field is an integer or absent (always true of
documents this API writes). -/
def likesOk (d : Document) : Bool :=
  match lookupD d "likes" with
  | some (.int _) => true
  | none => true
  | _ => false

/-- The effect of `{"$inc": {"likes": 1}}` on one document. -/
def incLikes (d : Document) : Document :=
  setKey d "likes" (.int (likesVal d + 1))

/-- `update_one({"_id": oid}, {"$inc": {"likes": 1}})`: increments the
first matching document in place and reports `matched_count`. -/
def update_one_inc : DbStore → String → DbStore × Nat
  | [], _ => ([], 0)
  | d :: ds, o =>
      if isOid o d then (incLikes d :: ds, 1)
      else
        let r := update_one_inc ds o
        (d :: r.1, r.2)

/- ### Creation -/

/-- The request model `CreateResource` of `src/main.py` lines 86–96.
Note: unlike `schemas.Studyasset`, the field `class_` is declared with no
alias, so the JSON body key is `class_`, not `class`. -/
structure CreateResource where
  title : String
  description : Option String := none
  subject : Option String := none
  class_ : Option String := none
  exam : Option String := none
  year : Option String := none
  file_url : String
  thumbnail_url : Option String := none
  type : Option String := none
  uploader_id : Option String := none
  deriving DecidableEq, Repr

/-- An optional string as stored in the document (`None` becomes null). -/
def optVal : Option String → BVal
  | none => .null
  | some s => .str s

/-- `payload.model_dump(by_alias=True)`: all ten fields in declaration
order, unset optionals as null.  No field of `CreateResource` declares an
alias, so `by_alias=True` changes nothing and the `class_` field is
emitted under the key `"class_"`. -/
def model_dump (p : CreateResource) : Document :=
  [("title", .str p.title), ("description", optVal p.description),
   ("subject", optVal p.subject), ("class_", optVal p.class_),
   ("exam", optVal p.exam), ("year", optVal p.year),
   ("file_url", .str p.file_url), ("thumbnail_url", optVal p.thumbnail_url),
   ("type", optVal p.type), ("uploader_id", optVal p.uploader_id)]

/-- Appends a binding only when the key is absent. -/
def setDefault (d : Document) (k : String) (v : BVal) : Document :=
  match lookupD d k with
  | some _ => d
  | none => d ++ [(k, v)]

/-- Modelled from the spec: `create_document(collection, data)` of the
repository's `database` module, which is not under `src/`.  Per §4.1 it
stores a new document and assigns a fresh identifier (`fresh`, the new
ObjectId in hex form), and per §3 `likes` defaults to 0 at creation and
`created_at` is set to the creation time (`now`) if absent.  Returns the
new store and the id handed back to the route. -/
def create_document (s : DbStore) (fresh : String) (now : Nat)
    (data : Document) : DbStore × String :=
  let d := setDefault (setDefault data "likes" (.int 0)) "created_at" (.dt now)
  (s ++ [("_id", .oid fresh) :: d], fresh)

/-- `create_resource` (`src/main.py` lines 130–137): dump the validated
payload and hand it to `create_document`; the route answers
`{"id": rid}`. -/
def create_resource (s : DbStore) (fresh : String) (now : Nat)
    (p : CreateResource) : DbStore × String :=
  create_document s fresh now (model_dump p)

/-- Pydantic validation of a JSON object body against `CreateResource`:
the required string fields `title` and `file_url` must be present as
strings; each optional field is read from its declared field name
(`class_` included, since no alias is declared); unknown keys — such as
`class` — are ignored (pydantic's default extra-field policy). -/
def getOptStr (j : Document) (k : String) : Option (Option String) :=
  match lookupD j k with
  | none => some none
  | some .null => some none
  | some (.str s) => some (some s)
  | some _ => none

/-- Required string field of the body. -/
def getReqStr (j : Document) (k : String) : Option String :=
  match lookupD j k with
  | some (.str s) => some s
  | _ => none

/-- Validation of `CreateResource` from a JSON object body; `none` is a
422 validation failure. -/
def parseCreateResource (j : Document) : Option CreateResource := do
  let title ← getReqStr j "title"
  let file_url ← getReqStr j "file_url"
  let description ← getOptStr j "description"
  let subject ← getOptStr j "subject"
  let class_ ← getOptStr j "class_"
  let exam ← getOptStr j "exam"
  let year ← getOptStr j "year"
  let thumbnail_url ← getOptStr j "thumbnail_url"
  let ty ← getOptStr j "type"
  let uploader_id ← getOptStr j "uploader_id"
  some { title := title, description := description, subject := subject,
         class_ := class_, exam := exam, year := year, file_url := file_url,
         thumbnail_url := thumbnail_url, type := ty,
         uploader_id := uploader_id }

/- ### Retrieval and like -/

/-- `get_resource` (`src/main.py` lines 140–157): 500 with the store
absent, 400 on an unparseable id, 404 when no document matches, else the
serialized document. -/
def get_resource (db : Option DbStore) (rid : String) :
    Except HErr Document :=
  match db with
  | none => .error (500, "Database not configured")
  | some s =>
      if isValidObjectId rid then
        match findOid s rid with
        | some d => .ok (serialize_doc d)
        | none => .error (404, "Resource not found")
      else .error (400, "Invalid id")

/-- `like_resource` (`src/main.py` lines 160–178): 500 with the store
absent, 400 on an unparseable id, then `update_one` with `$inc likes 1`;
404 when nothing matched, else re-fetch and serialize (a vanished
document would be returned as `None`, hence the `Option`).  The second
component is the store after the call. -/
def like_resource (db : Option DbStore) (rid : String) :
    Except HErr (Option Document) × Option DbStore :=
  match db with
  | none => (.error (500, "Database not configured"), none)
  | some s =>
      if isValidObjectId rid then
        let r := update_one_inc s rid
        if r.2 = 0 then (.error (404, "Resource not found"), some r.1)
        else (.ok ((findOid r.1 rid).map serialize_doc), some r.1)
      else (.error (400, "Invalid id"), some s)

/-- The store after one like call on an existing, valid id. -/
def likeStore (s : DbStore) (o : String) : DbStore :=
  (update_one_inc s o).1

/-- N sequential like calls. -/
def likeIter : Nat → DbStore → String → DbStore
  | 0, s, _ => s
  | n + 1, s, o => likeIter n (likeStore s o) o

/-- The `likes` count stored for id `o` (0 when absent). -/
def likesAt (s : DbStore) (o : String) : Int :=
  match findOid s o with
  | some d => likesVal d
  | none => 0

/- ### The diagnostics endpoint `GET /test` -/

/-- The store handle as seen by `/test`: its reported `name` attribute
(absent when the object has no `name`) and the outcome of
`list_collection_names()` (which may raise). -/
structure DBHandle where
  name : Option String
  collections : Except String (List String)

/-- The outcome of `from database import db` inside the handler:
the module may be missing (`ImportError`), its import may raise some
other exception, or it loads and `db` is `None` or a handle. -/
inductive DBImport where
  | importErr
  | raised (msg : String)
  | loaded (db : Option DBHandle)

/-- Environment and store state of one `/test` request. -/
structure TestEnv where
  dbImport : DBImport
  hasDatabaseUrl : Bool
  hasDatabaseName : Bool

/-- The response body of `/test`. -/
structure TestResponse where
  backend : String
  database : String
  database_url : String
  database_name : String
  connection_status : String
  collections : List String
  deriving DecidableEq, Repr

/-- `test_database` (`src/main.py` lines 44–82), branch for branch: the
initial response dict; the guarded import; the `db is not None` branch
setting availability and `connection_status` and then attempting
`list_collection_names()` (capped at 10, listing errors truncated to 50
characters); the `ImportError` / generic exception handlers; and the
final unconditional overwrite of `database_url` and `database_name` from
the environment (lines 79–80, which discard the `db.name` value set at
line 62). -/
def test_database (env : TestEnv) : TestResponse :=
  let base : TestResponse :=
    { backend := "✅ Running", database := "❌ Not Available",
      database_url := "None", database_name := "None",
      connection_status := "Not Connected", collections := [] }
  let mid : TestResponse :=
    match env.dbImport with
    | .importErr => { base with database := "❌ Database module not found" }
    | .raised msg => { base with database := "❌ Error: " ++ msg.take 50 }
    | .loaded none => { base with database := "⚠️  Available but not initialized" }
    | .loaded (some h) =>
        let conn : TestResponse :=
          { base with
            database := "✅ Available",
            database_url := if env.hasDatabaseUrl then "✅ Set" else "❌ Not Set",
            database_name := h.name.getD "✅ Connected",
            connection_status := "Connected" }
        match h.collections with
        | .ok cols =>
            { conn with
              collections := cols.take 10,
              database := "✅ Connected & Working" }
        | .error e =>
            { conn with
              database := "⚠️  Connected but Error: " ++ e.take 50 }
  { mid with
    database_url := if env.hasDatabaseUrl then "✅ Set" else "❌ Not Set",
    database_name := if env.hasDatabaseName then "✅ Set" else "❌ Not Set" }

/-- The HTTP layer around `/test`: the handler body is total, so FastAPI
always answers 200 with the response dict. -/
def test_endpoint (env : TestEnv) : Nat × TestResponse :=
  (200, test_database env)

/-- Whether the store is actually connected in state `env`: the module
imported and `db` is not `None`. -/
def storeConnected (env : TestEnv) : Bool :=
  match env.dbImport with
  | .loaded (some _) => true
  | _ => false

/- ### find/update lemmas -/

theorem isOid_incLikes (o : String) (d : Document) :
    isOid o (incLikes d) = isOid o d := by
  simp [isOid, incLikes, lookupD_setKey_ne d "likes" "_id" _ (by decide)]

theorem likesVal_incLikes (d : Document) :
    likesVal (incLikes d) = likesVal d + 1 := by
  simp [likesVal, incLikes, lookupD_setKey_self]

theorem update_one_inc_found (s : DbStore) (o : String) (d : Document)
    (h : findOid s o = some d) :
    (update_one_inc s o).2 = 1 ∧
      findOid (update_one_inc s o).1 o = some (incLikes d) := by
  induction s with
  | nil => simp [findOid] at h
  | cons d₀ ds ih =>
      by_cases h₀ : isOid o d₀
      · rw [findOid, if_pos h₀] at h
        obtain rfl : d₀ = d := by injection h
        simp [update_one_inc, h₀, findOid, isOid_incLikes, h₀]
      · rw [findOid, if_neg h₀] at h
        have := ih h
        simp [update_one_inc, h₀, findOid, this.1, this.2]

theorem update_one_inc_notfound (s : DbStore) (o : String)
    (h : findOid s o = none) : update_one_inc s o = (s, 0) := by
  induction s with
  | nil => rfl
  | cons d₀ ds ih =>
      by_cases h₀ : isOid o d₀
      · rw [findOid, if_pos h₀] at h
        exact absurd h (by simp)
      · rw [findOid, if_neg h₀] at h
        simp [update_one_inc, h₀, ih h]

theorem findOid_append_of_none (s t : DbStore) (o : String)
    (h : findOid s o = none) : findOid (s ++ t) o = findOid t o := by
  induction s with
  | nil => rfl
  | cons d₀ ds ih =>
      by_cases h₀ : isOid o d₀
      · rw [findOid, if_pos h₀] at h
        exact absurd h (by simp)
      · rw [findOid, if_neg h₀] at h
        simpa [findOid, h₀] using ih h

theorem likeIter_likes (N : Nat) (s : DbStore) (o : String) (d : Document)
    (h : findOid s o = some d) :
    ∃ d', findOid (likeIter N s o) o = some d' ∧
      likesVal d' = likesVal d + N := by
  induction N generalizing s d with
  | zero => exact ⟨d, h, by simp⟩
  | succ n ih =>
      have hu := update_one_inc_found s o d h
      obtain ⟨d', hd', hl⟩ := ih (likeStore s o) (incLikes d) hu.2
      refine ⟨d', hd', ?_⟩
      rw [hl, likesVal_incLikes]
      omega

/- ### Sort-key transport through serialization -/

theorem caKey_serialize_doc (d : Document) :
    caKey (serialize_doc d) = caKey d := by
  unfold caKey
  rw [lookupD_serialize_doc_other d "created_at" (by decide) (by decide)]

theorem byCreatedDesc_serialize (a b : Document) (h : byCreatedDesc a b) :
    byCreatedDesc (serialize_doc a) (serialize_doc b) := by
  unfold byCreatedDesc at h ⊢
  rwa [caKey_serialize_doc, caKey_serialize_doc]

/- ### Concrete data used by the witnesses and counterexamples -/

/-- A well-formed ObjectId hex string. -/
def oidA : String := "0123456789abcdef01234567"

/-- Another well-formed ObjectId hex string, matching no stored document
in the one-document example store. -/
def oidB : String := "0123456789abcdef01234568"

/-- A stored study asset as this API creates it. -/
def exDoc : Document :=
  [("_id", .oid oidA), ("title", .str "abc"), ("description", .null),
   ("subject", .null), ("class_", .null), ("exam", .null), ("year", .null),
   ("file_url", .str "http://x/y.pdf"), ("thumbnail_url", .null),
   ("type", .null), ("uploader_id", .null), ("likes", .int 0),
   ("created_at", .dt 5)]

/-- A document with no `_id` key. -/
def exNoId : Document := [("title", .str "t"), ("likes", .int 3)]

/-- C9: serialization of a document returned by the resource endpoints
(such documents carry an `_id` and never an `id` key) renames only the
internal `_id` field to a public `id` field holding its string
representation; every other field keeps its key and value. -/
theorem C9_serialize_renames_only_id (doc : Document) (v : BVal)
    (hid : lookupD doc "_id" = some v) (hno : lookupD doc "id" = none) :
    lookupD (serialize_doc doc) "id" = some (.str (bvalStr v)) ∧
    lookupD (serialize_doc doc) "_id" = none ∧
    ∀ k, k ≠ "_id" → k ≠ "id" →
      lookupD (serialize_doc doc) k = lookupD doc k := by
  refine ⟨lookupD_serialize_doc_id doc v hid, lookupD_serialize_doc_no_uid doc,
    fun k h1 h2 => lookupD_serialize_doc_other doc k h1 h2⟩

/-- Witness for C9 at the concrete stored document. -/
theorem C9_serialize_renames_only_id_witness :
    lookupD exDoc "_id" = some (.oid oidA) ∧
    lookupD exDoc "id" = none ∧
    (lookupD (serialize_doc exDoc) "id" = some (.str (bvalStr (.oid oidA))) ∧
     lookupD (serialize_doc exDoc) "_id" = none ∧
     ∀ k, k ≠ "_id" → k ≠ "id" →
       lookupD (serialize_doc exDoc) k = lookupD exDoc k) :=
  ⟨by decide, by decide,
    C9_serialize_renames_only_id exDoc (.oid oidA) (by decide) (by decide)⟩

/-- C10: `serialize_doc` is idempotent, is the identity on documents with
no `_id` key, and returns an empty document unchanged. -/
theorem C10_serialize_idempotent :
    (∀ doc : Document, serialize_doc (serialize_doc doc) = serialize_doc doc) ∧
    (∀ doc : Document, lookupD doc "_id" = none → serialize_doc doc = doc) ∧
    serialize_doc ([] : Document) = [] := by
  refine ⟨fun doc => ?_, fun doc h => serialize_doc_of_no_id doc h, rfl⟩
  exact serialize_doc_of_no_id _ (lookupD_serialize_doc_no_uid doc)

/-- Witness for C10 at concrete documents. -/
theorem C10_serialize_idempotent_witness :
    serialize_doc (serialize_doc exDoc) = serialize_doc exDoc ∧
    (lookupD exNoId "_id" = none ∧ serialize_doc exNoId = exNoId) :=
  ⟨C10_serialize_idempotent.1 exDoc,
   by decide, C10_serialize_idempotent.2.1 exNoId (by decide)⟩

/-- C8: `/test` answers 200 for every environment and store state — the
handler is total, every failure mode being caught — and its
`connection_status` field is "Connected" exactly when the store module
loaded with an initialized handle, "Not Connected" otherwise. -/
theorem C8_test_always_200 (env : TestEnv) :
    (test_endpoint env).1 = 200 ∧
    (test_endpoint env).2.connection_status =
      (if storeConnected env then "Connected" else "Not Connected") := by
  refine ⟨rfl, ?_⟩
  obtain ⟨imp, u, n⟩ := env
  cases imp with
  | importErr => rfl
  | raised msg => rfl
  | loaded o =>
      cases o with
      | none => rfl
      | some h =>
          cases hc : h.collections <;>
            simp [test_endpoint, test_database, storeConnected, hc]

/-- C3: with the store configured, an id string that `ObjectId` cannot
parse makes both `GET /api/resources/{id}` and the like endpoint answer
400 "Invalid id" (neither 404 nor 500), and the like endpoint leaves the
store untouched. -/
theorem C3_malformed_id_400 (s : DbStore) (rid : String)
    (h : isValidObjectId rid = false) :
    get_resource (some s) rid = .error (400, "Invalid id") ∧
    like_resource (some s) rid = (.error (400, "Invalid id"), some s) := by
  constructor
  · simp [get_resource, h]
  · simp [like_resource, h]

/-- Witness for C3 at the malformed id "xyz". -/
theorem C3_malformed_id_400_witness :
    isValidObjectId "xyz" = false ∧
    (get_resource (some [exDoc]) "xyz" = .error (400, "Invalid id") ∧
     like_resource (some [exDoc]) "xyz" = (.error (400, "Invalid id"), some [exDoc])) :=
  ⟨by decide, C3_malformed_id_400 [exDoc] "xyz" (by decide)⟩

/-- C4: with the store configured, a well-formed id matching no document
makes both endpoints answer 404 "Resource not found", and the like
endpoint leaves the store unchanged. -/
theorem C4_not_found_404 (s : DbStore) (rid : String)
    (hv : isValidObjectId rid = true) (hn : findOid s rid = none) :
    get_resource (some s) rid = .error (404, "Resource not found") ∧
    like_resource (some s) rid = (.error (404, "Resource not found"), some s) := by
  have hu := update_one_inc_notfound s rid hn
  constructor
  · simp [get_resource, hv, hn]
  · simp [like_resource, hv, hu]

/-- Witness for C4 at an absent but well-formed id. -/
theorem C4_not_found_404_witness :
    isValidObjectId oidB = true ∧ findOid [exDoc] oidB = none ∧
    (get_resource (some [exDoc]) oidB = .error (404, "Resource not found") ∧
     like_resource (some [exDoc]) oidB =
       (.error (404, "Resource not found"), some [exDoc])) :=
  ⟨by decide, by decide, C4_not_found_404 [exDoc] oidB (by decide) (by decide)⟩

/- ### C1: the like endpoint increments by exactly one -/

/-- C1: with the store configured, for an existing id (valid ObjectId,
matching document, `likes` stored as an integer or absent as this API
always writes it) one like call answers 200 with the serialized updated
document whose `likes` is one more than before, the store is updated
accordingly, and N sequential calls leave `likes` exactly N above the
initial value. -/
theorem C1_like_increments (s : DbStore) (o : String) (d : Document)
    (hv : isValidObjectId o = true) (hf : findOid s o = some d)
    (hok : likesOk d = true) :
    (like_resource (some s) o).1 = .ok (some (serialize_doc (incLikes d))) ∧
    (like_resource (some s) o).2 = some (likeStore s o) ∧
    lookupD (serialize_doc (incLikes d)) "likes" =
      some (.int (likesAt s o + 1)) ∧
    ∀ N : Nat, likesAt (likeIter N s o) o = likesAt s o + N := by
  have hu := update_one_inc_found s o d hf
  have hA : likesAt s o = likesVal d := by simp [likesAt, hf]
  refine ⟨?_, ?_, ?_, fun N => ?_⟩
  · simp [like_resource, hv, likeStore, hu.1, hu.2]
  · simp [like_resource, hv, likeStore, hu.1]
  · rw [lookupD_serialize_doc_other _ _ (by decide) (by decide), incLikes,
      lookupD_setKey_self, hA]
  · obtain ⟨d', hd', hl⟩ := likeIter_likes N s o d hf
    rw [hA]
    simp [likesAt, hd', hl]

/-- Witness for C1 on a one-document store, including three sequential
calls. -/
theorem C1_like_increments_witness :
    isValidObjectId oidA = true ∧ findOid [exDoc] oidA = some exDoc ∧
    likesOk exDoc = true ∧
    (like_resource (some [exDoc]) oidA).1 =
      .ok (some (serialize_doc (incLikes exDoc))) ∧
    likesAt (likeIter 3 [exDoc] oidA) oidA =
      likesAt [exDoc] oidA + ((3 : Nat) : Int) :=
  ⟨by decide, by decide, by decide,
   (C1_like_increments [exDoc] oidA exDoc (by decide) (by decide)
     (by decide)).1,
   (C1_like_increments [exDoc] oidA exDoc (by decide) (by decide)
     (by decide)).2.2.2 3⟩

/- ### C2: creation then retrieval -/

/-- The document `create_document` stores for payload `p` with fresh id
`fresh` at time `now`. -/
def insertedDoc (fresh : String) (now : Nat) (p : CreateResource) : Document :=
  ("_id", .oid fresh) ::
    setDefault (setDefault (model_dump p) "likes" (.int 0))
      "created_at" (.dt now)

theorem create_resource_eq (s : DbStore) (fresh : String) (now : Nat)
    (p : CreateResource) :
    create_resource s fresh now p = (s ++ [insertedDoc fresh now p], fresh) :=
  rfl

theorem lookupD_append (d e : Document) (k : String) :
    lookupD (d ++ e) k =
      (match lookupD d k with
       | some v => some v
       | none => lookupD e k) := by
  induction d with
  | nil => simp [lookupD]
  | cons kv rest ih =>
      obtain ⟨k₀, v₀⟩ := kv
      by_cases h₀ : k₀ = k <;> simp [lookupD, h₀, ih]

theorem lookupD_setDefault (d : Document) (k k' : String) (v : BVal)
    (v' : BVal) (h : lookupD d k = some v) :
    lookupD (setDefault d k' v') k = some v := by
  unfold setDefault
  cases lookupD d k' with
  | some w => exact h
  | none => rw [lookupD_append, h]

/-- C2: with the store configured, creation with a valid payload returns
the fresh id, and retrieving that id yields the serialized stored
document, whose `likes` is 0, whose `id` is the fresh id's string, and in
which every field of the submitted payload dump is preserved with its key
and value unchanged. -/
theorem C2_create_then_get (s : DbStore) (p : CreateResource)
    (fresh : String) (now : Nat) (hv : isValidObjectId fresh = true)
    (hfresh : findOid s fresh = none) :
    (create_resource s fresh now p).2 = fresh ∧
    get_resource (some (create_resource s fresh now p).1) fresh =
      .ok (serialize_doc (insertedDoc fresh now p)) ∧
    lookupD (serialize_doc (insertedDoc fresh now p)) "likes" =
      some (.int 0) ∧
    lookupD (serialize_doc (insertedDoc fresh now p)) "id" =
      some (.str fresh) ∧
    ∀ k v, lookupD (model_dump p) k = some v →
      lookupD (serialize_doc (insertedDoc fresh now p)) k = some v := by
  refine ⟨rfl, ?_, rfl, rfl, ?_⟩
  · have hfind2 : findOid (s ++ [insertedDoc fresh now p]) fresh
        = some (insertedDoc fresh now p) := by
      rw [findOid_append_of_none s _ fresh hfresh]
      simp [findOid, isOid, insertedDoc, lookupD]
    have h1 : (create_resource s fresh now p).1
        = s ++ [insertedDoc fresh now p] := rfl
    rw [h1]
    simp [get_resource, hv, hfind2]
  · intro k v hm
    have hkid : k ≠ "_id" := by
      intro he
      rw [he] at hm
      simp [model_dump, lookupD] at hm
    have hkid2 : k ≠ "id" := by
      intro he
      rw [he] at hm
      simp [model_dump, lookupD] at hm
    rw [lookupD_serialize_doc_other _ _ hkid hkid2]
    unfold insertedDoc
    rw [lookupD]
    rw [if_neg (Ne.symm hkid)]
    exact lookupD_setDefault _ _ _ _ _ (lookupD_setDefault _ _ _ _ _ hm)

/-- A concrete valid creation payload. -/
def exPayload : CreateResource :=
  { title := "Algebra Notes", file_url := "http://x/y.pdf" }

/-- Witness for C2: create into an empty store, then fetch. -/
theorem C2_create_then_get_witness :
    isValidObjectId oidA = true ∧ findOid [] oidA = none ∧
    get_resource (some (create_resource [] oidA 7 exPayload).1) oidA =
      .ok (serialize_doc (insertedDoc oidA 7 exPayload)) ∧
    lookupD (serialize_doc (insertedDoc oidA 7 exPayload)) "likes" =
      some (.int 0) ∧
    lookupD (serialize_doc (insertedDoc oidA 7 exPayload)) "title" =
      some (.str "Algebra Notes") :=
  ⟨by decide, by decide,
   (C2_create_then_get [] exPayload oidA 7 (by decide) (by decide)).2.1,
   (C2_create_then_get [] exPayload oidA 7 (by decide) (by decide)).2.2.1,
   (C2_create_then_get [] exPayload oidA 7 (by decide) (by decide)).2.2.2.2
     "title" (.str "Algebra Notes") (by decide)⟩

/- ### C5: search semantics of `q` -/

/-- Spec-side field predicate (from the claim's words): the field is a
string containing `q` as a case-insensitive literal substring. -/
def litField (q : String) (d : Document) (k : String) : Bool :=
  match strField d k with
  | some s => containsCI s q
  | none => false

/-- Spec-side predicate, following the claim's words: at least one of the
five searchable fields contains `q` as a case-insensitive literal
substring. -/
def qLit (q : String) (d : Document) : Bool :=
  litField q d "title" || litField q d "description" ||
  litField q d "subject" || litField q d "exam" || litField q d "year"

/-- The lowered pattern uses no PCRE metacharacter. -/
def noMetaPat (q : String) : Bool :=
  (q.toList.map Char.toLower).all (fun c => !(pcreMeta.contains c))

/-- C5 counterexample: the code passes `q` to the store as a regular
expression, not as a literal.  For `q = "."` the stored document with
title "abc" is returned although none of its five searchable fields
contains "." as a literal substring, so the claim as stated is false. -/
theorem C5_counterexample_dot :
    list_resources (some [exDoc]) (some ".") none none 24 =
      .ok [serialize_doc exDoc] ∧
    qLit "." exDoc = false := by
  constructor
  · rfl
  · rfl

/-- C5 amended: for a nonempty `q` whose characters (lowered) include no
PCRE metacharacter, the regex interpretation coincides with the literal
reading, and the listing returns exactly the documents in which one of
`title`, `description`, `subject`, `exam`, `year` contains `q` as a
case-insensitive literal substring (then sorted, truncated and
serialized). -/
theorem C5_literal_iff_no_meta (s : DbStore) (q : String) (limit : Int)
    (hne : q ≠ "") (hm : noMetaPat q = true) :
    list_resources (some s) (some q) none none limit =
      .ok ((applyLimit limit (List.insertionSort byCreatedDesc
        (s.filter (qLit q)))).map serialize_doc) := by
  have hm' : ∀ c ∈ q.toList.map Char.toLower, c ∉ pcreMeta := by
    intro c hc
    have := (List.all_eq_true.mp hm) c hc
    simpa using this
  have hq0 : q.isEmpty = false := by
    rw [Bool.eq_false_iff]
    intro hh
    exact hne ((String.isEmpty_iff q).mp hh)
  have hq : truthy (some q) = true := by simp [truthy, hq0]
  have hfield : ∀ d k, regexField q d k = litField q d k := by
    intro d k
    unfold regexField litField
    cases strField d k with
    | none => rfl
    | some str =>
        show mongoRegexCI q str = containsCI str q
        unfold mongoRegexCI containsCI
        exact reSearch_eq_containsL _ hm' _
  have hmatch : ∀ d ∈ s, matchesFilter (some q) none none d = qLit q d := by
    intro d _
    unfold matchesFilter qFilter qLit
    simp [truthy, hq0, hfield]
  simp [list_resources, List.filter_congr hmatch]

/-- Witness for C5 at the metacharacter-free query "algebra". -/
theorem C5_literal_iff_no_meta_witness :
    "algebra" ≠ "" ∧ noMetaPat "algebra" = true ∧
    list_resources (some [exDoc]) (some "algebra") none none 24 =
      .ok ((applyLimit 24 (List.insertionSort byCreatedDesc
        ([exDoc].filter (qLit "algebra")))).map serialize_doc) :=
  ⟨by decide, by decide,
   C5_literal_iff_no_meta [exDoc] "algebra" 24 (by decide) (by decide)⟩

/- ### C6: ordering and truncation of listings -/

/-- The item list of a listing result (empty on an error result). -/
def resultItems : Except HErr (List Document) → List Document
  | .ok l => l
  | .error _ => []

/-- C6: for every store state and query with a positive `limit`, the
items returned by the listing are sorted by `created_at` descending with
unset values as earliest (the order `byCreatedDesc` encodes exactly
that), contain at most `limit` entries, and the `limit` parameter
defaults to 24. -/
theorem C6_sorted_and_limited (s : DbStore) (q sub ty : Option String)
    (limit : Int) (hl : 0 < limit) :
    List.Sorted byCreatedDesc
      (resultItems (list_resources (some s) q sub ty limit)) ∧
    (resultItems (list_resources (some s) q sub ty limit)).length ≤
      limit.toNat ∧
    list_resources_default (some s) q sub ty =
      list_resources (some s) q sub ty 24 := by
  have hitems : resultItems (list_resources (some s) q sub ty limit)
      = (applyLimit limit (List.insertionSort byCreatedDesc
          (s.filter (matchesFilter q sub ty)))).map serialize_doc := rfl
  refine ⟨?_, ?_, rfl⟩
  · rw [hitems]
    have hsorted : List.Sorted byCreatedDesc
        (applyLimit limit (List.insertionSort byCreatedDesc
          (s.filter (matchesFilter q sub ty)))) := by
      have h0 := List.sorted_insertionSort byCreatedDesc
        (s.filter (matchesFilter q sub ty))
      unfold applyLimit
      split
      · exact h0
      · exact h0.sublist (List.take_sublist _ _)
    exact hsorted.map serialize_doc byCreatedDesc_serialize
  · rw [hitems, List.length_map]
    unfold applyLimit
    split
    · next h => exact absurd h (by omega)
    · have h1 : (List.take limit.natAbs (List.insertionSort byCreatedDesc
          (s.filter (matchesFilter q sub ty)))).length ≤ limit.natAbs := by
        rw [List.length_take]
        exact Nat.min_le_left _ _
      have h2 : limit.natAbs = limit.toNat := by omega
      omega

/-- Witness for C6 on a one-document store with the default limit. -/
theorem C6_sorted_and_limited_witness :
    (0 : Int) < 24 ∧
    (List.Sorted byCreatedDesc
      (resultItems (list_resources (some [exDoc]) none none none 24)) ∧
     (resultItems (list_resources (some [exDoc]) none none none 24)).length ≤
       (24 : Int).toNat ∧
     list_resources_default (some [exDoc]) none none none =
       list_resources (some [exDoc]) none none none 24) :=
  ⟨by decide, C6_sorted_and_limited [exDoc] none none none 24 (by decide)⟩

/- ### C7: the `class` body field -/

/-- A creation body supplying the key `class`. -/
def bodyWithClassKey : Document :=
  [("title", .str "Algebra Notes"), ("file_url", .str "http://x/y.pdf"),
   ("class", .str "Grade 10")]

/-- C7 (against the claim): a creation body supplying the key `class` is
accepted, but its value is dropped: `CreateResource` declares `class_`
with no alias (unlike `schemas.Studyasset`, which aliases it to
`class`, and despite `create_resource` dumping with `by_alias=True`), so
pydantic ignores the unknown `class` key, the parsed payload's `class_`
is `None`, and the stored document carries `class_ = null` and no
`class` field at all. -/
theorem C7_class_key_dropped :
    (parseCreateResource bodyWithClassKey).map (fun p => p.class_) =
      some none ∧
    (parseCreateResource bodyWithClassKey).map
      (fun p => lookupD (model_dump p) "class") = some none ∧
    (parseCreateResource bodyWithClassKey).map
      (fun p => lookupD (model_dump p) "class_") = some (some BVal.null) := by
  refine ⟨rfl, rfl, rfl⟩
